import Mathlib

/-!
# Sale processing and bulk repricing of `src/index.js`

A shallow embedding of three request handlers of `src/index.js`:

* `app.put('/precios/actualizar-proveedor')` (the spec's `bulkReprice`),
* `app.post('/ventas')` (the spec's `submitSale`),
* `app.get('/ventas/:id')` (the spec's `getSaleDetail`).

Modelling conventions.

* A table is the list of its rows, in storage order; a query without
  `ORDER BY` returns rows in that order and `rows[0]` is the head.
* Values stored in `NUMERIC` columns are exact rationals and SQL arithmetic on
  them is exact; `ROUND(x, 2)` rounds to two decimals, ties away from zero.
  A number handed to a statement travels as its decimal text, so the
  quantities of a cart are the decimals the statements receive.
* Arithmetic done in JavaScript (`totalVenta`) is IEEE 754 binary64: a finite
  double is the rational it denotes, and every operation rounds the exact
  result to the nearest double, ties to even (`aDoble`).
* A statement parameter sent without a type takes the type the server infers
  for it: beside the integer literal of `$1 / 100` that is `integer`, and the
  division is integer division.
* A transaction (`BEGIN` .. `COMMIT` / `ROLLBACK`) is a working copy of the
  store: `COMMIT` returns the working copy, `ROLLBACK` the store the handler
  started from.  One handler runs at a time.
* The statements themselves do not fail, so the `catch` branches (status 500)
  are reached only where noted.
-/

namespace Ferreteria

/-! ## Numbers -/

/-- A JavaScript number: `NaN`, an infinity, or a finite double given by the
rational it denotes.  The same three shapes are the values of a `NUMERIC`
column. -/
inductive JsNum where
  | nan
  | inf (negativo : Bool)
  | fin (q : ℚ)
  deriving DecidableEq

/-- Rounding to two decimals, ties away from zero: `ROUND(x, 2)` on a
`NUMERIC`, and the digits `x.toFixed(2)` prints for a double below `10^21`. -/
def round2 (x : ℚ) : ℚ :=
  if 0 ≤ x then ((⌊x * 100 + 1 / 2⌋ : ℤ) : ℚ) / 100
  else -(((⌊-x * 100 + 1 / 2⌋ : ℤ) : ℚ) / 100)

/-- Nearest integer, ties to the even one. -/
def redondeoPar (y : ℚ) : ℤ :=
  if y - ⌊y⌋ < 1 / 2 then ⌊y⌋
  else if 1 / 2 < y - ⌊y⌋ then ⌊y⌋ + 1
  else if ⌊y⌋ % 2 = 0 then ⌊y⌋
  else ⌊y⌋ + 1

/-- The double nearest to a rational (binary64: 53 significant bits, least
exponent -1022, ties to even, overflow to infinity from `2^1024`). -/
def aDoble (x : ℚ) : JsNum :=
  if x = 0 then .fin 0
  else
    let ulp : ℚ := 2 ^ (max (Int.log 2 |x|) (-1022) - 52)
    let r : ℚ := redondeoPar (x / ulp) * ulp
    if 2 ^ (1024 : ℕ) ≤ |r| then .inf (decide (x < 0)) else .fin r

/-- What `parseFloat` makes of the decimal text of a number. -/
def parseFloat (decimal : ℚ) : JsNum :=
  aDoble decimal

/-- The product `a * b` of two JavaScript numbers. -/
def JsNum.mul : JsNum → JsNum → JsNum
  | .fin a, .fin b => aDoble (a * b)
  | .fin a, .inf s => if a = 0 then .nan else .inf (xor s (decide (a < 0)))
  | .inf s, .fin b => if b = 0 then .nan else .inf (xor s (decide (b < 0)))
  | .inf s, .inf t => .inf (xor s t)
  | _, _ => .nan

/-- The sum `a + b` of two JavaScript numbers. -/
def JsNum.add : JsNum → JsNum → JsNum
  | .fin a, .fin b => aDoble (a + b)
  | .fin _, .inf s => .inf s
  | .inf s, .fin _ => .inf s
  | .inf s, .inf t => if s = t then .inf s else .nan
  | _, _ => .nan

/-- The multiple of `10^p` next to the positive double `x` that reads back as
`x`, if there is one: of the two neighbours the nearer, and at equal distance
the one with the even last digit. -/
def candidatoCorto (x : ℚ) (p : ℕ) : Option ℚ :=
  let paso : ℚ := 10 ^ p
  let abajo : ℤ := ⌊x / paso⌋
  let a : ℚ := abajo * paso
  let b : ℚ := (abajo + 1) * paso
  let okA : Bool := decide (0 < abajo) && decide (aDoble a = .fin x)
  let okB : Bool := decide (aDoble b = .fin x)
  if okA && okB then
    if x - a < b - x then some a
    else if b - x < x - a then some b
    else if abajo % 2 = 0 then some a
    else some b
  else if okA then some a
  else if okB then some b
  else none

/-- The decimal `String(x)` prints for a double `x` of at least `10^21`: the
one with the fewest digits that reads back as `x`. -/
def decimalMasCorto (x : ℚ) : ℚ :=
  ((List.range 310).reverse.findSome? (candidatoCorto x)).getD x

/-- The value of the text `x.toFixed(2)`, as the `NUMERIC` it becomes when a
statement receives it. -/
def toFixed2 : JsNum → JsNum
  | .nan => .nan
  | .inf s => .inf s
  | .fin x =>
    if |x| < 10 ^ (21 : ℕ) then .fin (round2 x)
    else if x < 0 then .fin (-decimalMasCorto (-x))
    else .fin (decimalMasCorto x)

/-! ## Tables -/

/-- Row of `productos` (the columns the three handlers touch). -/
structure Producto where
  id : Nat
  nombre : String
  sku : String
  stock_actual : ℚ
  deriving DecidableEq

/-- Row of `costos_y_precios`. -/
structure CostoPrecio where
  id_producto : Nat
  id_proveedor : Nat
  precio_costo : ℚ
  margen_ganancia_porcentaje : ℚ
  precio_venta_final : ℚ
  fecha_actualizacion : Nat
  deriving DecidableEq

/-- Row of `ventas`. -/
structure Venta where
  id : Nat
  fecha : Nat
  total : JsNum
  deriving DecidableEq

/-- Row of `detalle_ventas`; the price column is `none` for SQL `NULL`
(what the driver sends for a JavaScript `undefined`). -/
structure DetalleVenta where
  id_venta : Nat
  id_producto : Nat
  cantidad_vendida : ℚ
  precio_unitario_momento : Option ℚ
  deriving DecidableEq

/-- The database: the four tables and the sequence behind `ventas.id`. -/
structure Store where
  productos : List Producto
  costos_y_precios : List CostoPrecio
  ventas : List Venta
  detalle_ventas : List DetalleVenta
  ventas_id_seq : Nat
  deriving DecidableEq

/-! ## `PUT /precios/actualizar-proveedor` -/

/-- Body of `PUT /precios/actualizar-proveedor`.  `id_proveedor` is `none`
when the field is absent; `porcentaje_aumento` is `none` when the field is
`undefined` and otherwise holds what `parseFloat` makes of the field. -/
structure CuerpoPrecios where
  id_proveedor : Option Nat
  porcentaje_aumento : Option JsNum
  deriving DecidableEq

/-- Response of `PUT /precios/actualizar-proveedor`. -/
inductive RespPrecios where
  | faltanCampos400
  | porcentajeInvalido400
  | actualizados200 (productos_actualizados : Nat)
  | errorInterno500
  deriving DecidableEq

/-- HTTP status of a repricing response. -/
def RespPrecios.status : RespPrecios → Nat
  | .faltanCampos400 => 400
  | .porcentajeInvalido400 => 400
  | .actualizados200 _ => 200
  | .errorInterno500 => 500

/-- The `SET` clause of the `UPDATE` of lines 175-185 on one row: every
right-hand side reads the row's old values.  `$1` is an `integer`, so
`$1 / 100` is integer division, truncating toward zero, and `1 + $1 / 100` is
an integer; the products and `margen_ganancia_porcentaje / 100` are `NUMERIC`
arithmetic. -/
def repreciarFila (ahora : Nat) (aumento : ℤ) (cp : CostoPrecio) : CostoPrecio :=
  { cp with
    precio_costo := cp.precio_costo * ((1 + Int.tdiv aumento 100 : ℤ) : ℚ)
    precio_venta_final :=
      round2 ((cp.precio_costo * ((1 + Int.tdiv aumento 100 : ℤ) : ℚ)) *
        (1 + cp.margen_ganancia_porcentaje / 100))
    fecha_actualizacion := ahora }

/-- The `UPDATE costos_y_precios ... WHERE id_proveedor = $2 RETURNING id_producto`
statement: the new store and `result.rowCount`. -/
def actualizarProveedor (ahora : Nat) (aumento : ℤ) (id_proveedor : Nat) (s : Store) :
    Nat × Store :=
  ((s.costos_y_precios.filter (fun cp => cp.id_proveedor = id_proveedor)).length,
   { s with
     costos_y_precios := s.costos_y_precios.map
       (fun cp => if cp.id_proveedor = id_proveedor then repreciarFila ahora aumento cp else cp) })

/-- Handler `app.put('/precios/actualizar-proveedor')`, lines 166-197 (the
spec's `bulkReprice`).  `!id_proveedor` holds for an absent field and for `0`.
A percentage that passes both guards is sent as its decimal text for the
`integer` parameter `$1`: the statement runs when that text is an integer of
32 bits, and raises otherwise (a fraction, a value out of range, an
infinity), in which case the `catch` branch answers 500. -/
def putPreciosActualizarProveedor (ahora : Nat) (body : CuerpoPrecios) (s : Store) :
    RespPrecios × Store :=
  match body.id_proveedor, body.porcentaje_aumento with
  | none, _ => (.faltanCampos400, s)
  | some 0, _ => (.faltanCampos400, s)
  | some _, none => (.faltanCampos400, s)
  | some id_proveedor, some aumento =>
    if aumento = .nan ∨ aumento = .fin 0 then (.porcentajeInvalido400, s)
    else
      match aumento with
      | .fin q =>
        if q.den = 1 ∧ -2147483648 ≤ q.num ∧ q.num ≤ 2147483647 then
          let r := actualizarProveedor ahora q.num id_proveedor s
          (.actualizados200 r.1, r.2)
        else (.errorInterno500, s)
      | _ => (.errorInterno500, s)

/-! ## `POST /ventas` -/

/-- One element of `items`.  `cantidad` is the decimal of the field, which is
what the statements receive; `cantidadNum` is `parseFloat` of it.
`precio_unitario_momento` is the property the handler assigns on line 241
(`none` while it is `undefined`). -/
structure Item where
  id_producto : Nat
  cantidad : ℚ
  precio_unitario_momento : Option ℚ
  deriving DecidableEq

/-- One entry of `erroresStock`, with the values interpolated in the message. -/
inductive ErrorStock where
  | noEncontrado (id_producto : Nat)
  | stockInsuficiente (nombre : String) (stock_actual : ℚ) (solicitado : ℚ)
  deriving DecidableEq

/-- Row returned by the `SELECT` of lines 223-227. -/
structure FilaProducto where
  nombre : String
  stock_actual : ℚ
  precio_venta_final : ℚ
  deriving DecidableEq

/-- The `SELECT p.nombre, p.stock_actual, cp.precio_venta_final FROM productos p
INNER JOIN costos_y_precios cp ON p.id = cp.id_producto WHERE p.id = $1`. -/
def selectProducto (s : Store) (id_producto : Nat) : List FilaProducto :=
  (s.productos.filter (fun p => p.id = id_producto)).flatMap fun p =>
    (s.costos_y_precios.filter (fun cp => p.id = cp.id_producto)).map fun cp =>
      { nombre := p.nombre, stock_actual := p.stock_actual,
        precio_venta_final := cp.precio_venta_final }

/-- The `UPDATE productos SET stock_actual = stock_actual - $1 WHERE id = $2`. -/
def descontarStock (cantidadNum : ℚ) (id_producto : Nat) (s : Store) : Store :=
  { s with
    productos := s.productos.map
      (fun p => if p.id = id_producto then { p with stock_actual := p.stock_actual - cantidadNum }
                else p) }

/-- The variables of the first loop of the handler: the open transaction,
`totalVenta`, `erroresStock`, and the items visited so far (with the property
line 241 may have set on them). -/
structure EstadoVenta where
  tx : Store
  totalVenta : JsNum
  erroresStock : List ErrorStock
  items : List Item
  deriving DecidableEq

/-- Body of the loop of lines 220-245 for one item.  A product that is not
found is skipped (`continue`); the stock check only records its error, and the
lines after it run for every product found.  `totalVenta` is accumulated in
doubles, from `precioVentaNum = parseFloat(precio_venta_final)` and
`cantidadNum = parseFloat(cantidad)`; the stock check orders the two decimals,
and the `UPDATE` and the price kept on the item carry their decimals. -/
def procesarItem (e : EstadoVenta) (item : Item) : EstadoVenta :=
  match selectProducto e.tx item.id_producto with
  | [] =>
    { e with
      erroresStock := e.erroresStock ++ [.noEncontrado item.id_producto]
      items := e.items ++ [item] }
  | fila :: _ =>
    { tx := descontarStock item.cantidad item.id_producto e.tx
      totalVenta :=
        e.totalVenta.add ((parseFloat fila.precio_venta_final).mul (parseFloat item.cantidad))
      erroresStock :=
        if fila.stock_actual < item.cantidad then
          e.erroresStock ++
            [.stockInsuficiente fila.nombre fila.stock_actual item.cantidad]
        else e.erroresStock
      items := e.items ++ [{ item with precio_unitario_momento := some fila.precio_venta_final }] }

/-- The `INSERT INTO detalle_ventas` of lines 258-261 for one item. -/
def insertarDetalle (id_venta : Nat) (tx : Store) (item : Item) : Store :=
  { tx with
    detalle_ventas := tx.detalle_ventas ++
      [{ id_venta := id_venta, id_producto := item.id_producto,
         cantidad_vendida := item.cantidad,
         precio_unitario_momento := item.precio_unitario_momento }] }

/-- Response of `POST /ventas`. -/
inductive RespVenta where
  | sinItems400
  | errorStock400 (details : List ErrorStock)
  | registrada201 (venta : Venta) (items_vendidos : Nat)
  deriving DecidableEq

/-- HTTP status of a sale response. -/
def RespVenta.status : RespVenta → Nat
  | .sinItems400 => 400
  | .errorStock400 _ => 400
  | .registrada201 _ _ => 201

/-- Handler `app.post('/ventas')`, lines 204-277 (the spec's `submitSale`).
An absent `items` takes the same branch as the empty list.  The second loop
walks the same array, whose elements now carry the price line 241 assigned.
`ahora` is the `fecha` the insert into `ventas` stamps; the new id is taken
from the sequence; the stored total is the value of `totalVenta.toFixed(2)`. -/
def postVentas (ahora : Nat) (items : List Item) (s : Store) : RespVenta × Store :=
  if items.length = 0 then (.sinItems400, s)
  else
    let e := items.foldl procesarItem
      { tx := s, totalVenta := .fin 0, erroresStock := [], items := [] }
    if e.erroresStock.length > 0 then (.errorStock400 e.erroresStock, s)
    else
      let venta : Venta :=
        { id := e.tx.ventas_id_seq, fecha := ahora, total := toFixed2 e.totalVenta }
      let tx1 : Store :=
        { e.tx with ventas := e.tx.ventas ++ [venta], ventas_id_seq := e.tx.ventas_id_seq + 1 }
      (.registrada201 venta items.length, e.items.foldl (insertarDetalle venta.id) tx1)

/-! ## `GET /ventas/:id` -/

/-- Row of the `detalle` array of `GET /ventas/:id`. -/
structure LineaDetalle where
  cantidad_vendida : ℚ
  precio_unitario_momento : Option ℚ
  nombre : String
  sku : String
  deriving DecidableEq

/-- Response of `GET /ventas/:id`. -/
inductive RespDetalle where
  | noEncontrada404
  | ok200 (venta : Venta) (detalle : List LineaDetalle)
  deriving DecidableEq

/-- The `SELECT ... FROM detalle_ventas dv JOIN productos p ON dv.id_producto = p.id
WHERE dv.id_venta = $1` of lines 288-297. -/
def selectDetalle (s : Store) (id_venta : Nat) : List LineaDetalle :=
  (s.detalle_ventas.filter (fun dv => dv.id_venta = id_venta)).flatMap fun dv =>
    (s.productos.filter (fun p => dv.id_producto = p.id)).map fun p =>
      { cantidad_vendida := dv.cantidad_vendida,
        precio_unitario_momento := dv.precio_unitario_momento,
        nombre := p.nombre, sku := p.sku }

/-- Handler `app.get('/ventas/:id')`, lines 280-307 (the spec's
`getSaleDetail`). -/
def getVentasId (id_venta : Nat) (s : Store) : RespDetalle :=
  match s.ventas.filter (fun v => v.id = id_venta) with
  | [] => .noEncontrada404
  | venta :: _ => .ok200 venta (selectDetalle s id_venta)

/-! ## Specification-side notions -/

/-- Total quantity the items of a list request of product `id_producto`. -/
def demanda (items : List Item) (id_producto : Nat) : ℚ :=
  ((items.filter (fun it => it.id_producto = id_producto)).map (fun it => it.cantidad)).sum

/-- Unit price the `SELECT` of the sale loop reads for a product: the
`precio_venta_final` of the first joined row, `none` when there is no row. -/
def precioLeido (s : Store) (id_producto : Nat) : Option ℚ :=
  (selectProducto s id_producto).head?.map (fun f => f.precio_venta_final)

/-- Amount `quantity * unit_price_at_sale` of a detail row (a row without a
price contributes nothing, as in an SQL `SUM`). -/
def DetalleVenta.importe (d : DetalleVenta) : ℚ :=
  match d.precio_unitario_momento with
  | some precio => d.cantidad_vendida * precio
  | none => 0

/-- The detail row `POST /ventas` writes for an item of a committed sale. -/
def detalleDe (s : Store) (id_venta : Nat) (item : Item) : DetalleVenta :=
  { id_venta := id_venta, id_producto := item.id_producto,
    cantidad_vendida := item.cantidad,
    precio_unitario_momento := precioLeido s item.id_producto }

/-- An item can be served from store `s` after the items `previos` have been
served: its product is found and the quantity already requested of that
product plus the item's own does not exceed the stock on hand. -/
def Cabe (s : Store) (previos : List Item) (item : Item) : Prop :=
  ∃ fila resto, selectProducto s item.id_producto = fila :: resto ∧
    demanda previos item.id_producto + item.cantidad ≤ fila.stock_actual

/-- Every item of the list is fulfillable when the items are processed in
input order, `previos` having been served before them. -/
def Surtible (s : Store) : List Item → List Item → Prop
  | _, [] => True
  | previos, item :: resto => Cabe s previos item ∧ Surtible s (previos ++ [item]) resto

/-- The item names a product that does not exist. -/
def NoExiste (s : Store) (item : Item) : Prop :=
  ∀ p ∈ s.productos, p.id ≠ item.id_producto

/-- The item requests more than its product's stock on hand in `s`. -/
def ExcedeStock (s : Store) (item : Item) : Prop :=
  ∃ fila resto, selectProducto s item.id_producto = fila :: resto ∧
    fila.stock_actual < item.cantidad

instance decidableCabe (s : Store) (previos : List Item) (item : Item) :
    Decidable (Cabe s previos item) :=
  match h : selectProducto s item.id_producto with
  | [] => isFalse (by
      rintro ⟨f, r, hs, _⟩
      rw [h] at hs
      exact List.noConfusion hs)
  | fila :: resto =>
    if hle : demanda previos item.id_producto + item.cantidad ≤ fila.stock_actual then
      isTrue ⟨fila, resto, h, hle⟩
    else isFalse (by
      rintro ⟨f, r, hs, hle2⟩
      rw [h] at hs
      rw [(List.cons.inj hs).1] at hle
      exact hle hle2)

/-- Decision procedure for `Surtible`, item by item. -/
def decideSurtible (s : Store) :
    (previos items : List Item) → Decidable (Surtible s previos items)
  | _, [] => isTrue trivial
  | previos, item :: resto =>
    match decidableCabe s previos item, decideSurtible s (previos ++ [item]) resto with
    | isTrue h1, isTrue h2 => isTrue ⟨h1, h2⟩
    | isFalse h1, _ => isFalse (fun h => h1 h.1)
    | _, isFalse h2 => isFalse (fun h => h2 h.2)

instance decidableSurtible (s : Store) (previos items : List Item) :
    Decidable (Surtible s previos items) :=
  decideSurtible s previos items

instance decidableNoExiste (s : Store) (item : Item) : Decidable (NoExiste s item) :=
  inferInstanceAs (Decidable (∀ p ∈ s.productos, p.id ≠ item.id_producto))

instance decidableExcedeStock (s : Store) (item : Item) : Decidable (ExcedeStock s item) :=
  match h : selectProducto s item.id_producto with
  | [] => isFalse (by
      rintro ⟨f, r, hs, _⟩
      rw [h] at hs
      exact List.noConfusion hs)
  | fila :: resto =>
    if hlt : fila.stock_actual < item.cantidad then isTrue ⟨fila, resto, h, hlt⟩
    else isFalse (by
      rintro ⟨f, r, hs, hlt2⟩
      rw [h] at hs
      rw [(List.cons.inj hs).1] at hlt
      exact hlt hlt2)

/-- The row `descontarStock` makes of a row the `SELECT` returned. -/
def FilaProducto.restar (c : ℚ) (f : FilaProducto) : FilaProducto :=
  { f with stock_actual := f.stock_actual - c }

/-- What line 241 leaves of an item: the price read for it, when its product
was found. -/
def anotar (s : Store) (it : Item) : Item :=
  match precioLeido s it.id_producto with
  | some precio => { it with precio_unitario_momento := some precio }
  | none => it

/-- What line 240 makes of `totalVenta` for an item. -/
def sumarImporte (s : Store) (totalVenta : JsNum) (it : Item) : JsNum :=
  match precioLeido s it.id_producto with
  | some precio => totalVenta.add ((parseFloat precio).mul (parseFloat it.cantidad))
  | none => totalVenta

/-- The store a committed sale leaves. -/
def tiendaTrasVenta (ahora : Nat) (items : List Item) (s : Store) : Store :=
  { productos := s.productos.map
      (fun p => { p with stock_actual := p.stock_actual - demanda items p.id })
    costos_y_precios := s.costos_y_precios
    ventas := s.ventas ++
      [{ id := s.ventas_id_seq, fecha := ahora,
         total := toFixed2 (items.foldl (sumarImporte s) (.fin 0)) }]
    detalle_ventas := s.detalle_ventas ++ items.map (detalleDe s s.ventas_id_seq)
    ventas_id_seq := s.ventas_id_seq + 1 }

/-! ## Example data -/

/-- A store with two products: a hammer with stock 5 sold at 120 (cost 100,
margin 20, supplier 7) and nails with stock 100 sold at 1.50 (supplier 8). -/
def tiendaEjemplo : Store :=
  { productos := [⟨1, "Martillo", "M-1", 5⟩, ⟨2, "Clavo", "C-1", 100⟩]
    costos_y_precios := [⟨1, 7, 100, 20, 120, 0⟩, ⟨2, 8, 1, 50, 3 / 2, 0⟩]
    ventas := []
    detalle_ventas := []
    ventas_id_seq := 1 }

/-- A store with one product sold by the metre: cable with stock 10 at 1.15
(cost 1, margin 15, supplier 7). -/
def tiendaCable : Store :=
  { productos := [⟨1, "Cable", "C-2", 10⟩]
    costos_y_precios := [⟨1, 7, 1, 15, 23 / 20, 0⟩]
    ventas := []
    detalle_ventas := []
    ventas_id_seq := 1 }

/-! ## Lemmas on the statements -/

theorem demanda_nil (i : Nat) : demanda [] i = 0 := by
  simp [demanda]

theorem demanda_cons (it : Item) (items : List Item) (i : Nat) :
    demanda (it :: items) i =
      (if it.id_producto = i then it.cantidad else 0) + demanda items i := by
  unfold demanda
  by_cases h : it.id_producto = i <;> simp [List.filter_cons, h]

theorem demanda_append (l₁ l₂ : List Item) (i : Nat) :
    demanda (l₁ ++ l₂) i = demanda l₁ i + demanda l₂ i := by
  simp [demanda, List.filter_append]

theorem demanda_nonneg (items : List Item) (i : Nat)
    (h : ∀ it ∈ items, 0 ≤ it.cantidad) : 0 ≤ demanda items i := by
  induction items with
  | nil => simp [demanda_nil]
  | cons it rest ih =>
    rw [demanda_cons]
    have h1 : 0 ≤ it.cantidad := h it (List.mem_cons_self _ _)
    have h2 : 0 ≤ demanda rest i := ih (fun x hx => h x (List.mem_cons_of_mem _ hx))
    split <;> linarith

theorem selectProducto_descontarStock (c : ℚ) (j : Nat) (s : Store) (i : Nat) :
    selectProducto (descontarStock c j s) i =
      (selectProducto s i).map (FilaProducto.restar (if i = j then c else 0)) := by
  unfold selectProducto descontarStock
  simp only
  generalize s.productos = ps
  induction ps with
  | nil => simp
  | cons p ps ih =>
    simp only [List.map_cons, List.filter_cons]
    by_cases hj : p.id = j <;> by_cases hi : p.id = i
    · have hij : i = j := hi ▸ hj
      simp only [hj, hi, hij, if_true, decide_True, List.flatMap_cons, List.map_append,
        List.map_map] at ih ⊢
      rw [ih, ← hj]
      rfl
    · have hij : ¬ j = i := fun h => hi (hj.trans h)
      simp only [hj, hi, hij, if_true, if_false, decide_True, decide_False] at ih ⊢
      exact ih
    · have hij : ¬ i = j := fun h => hj (hi.trans h)
      simp only [hj, hi, hij, if_true, if_false, decide_True, decide_False, List.flatMap_cons,
        List.map_append, List.map_map] at ih ⊢
      rw [ih]
      congr 1
      apply List.map_congr_left
      intro cp _
      simp [FilaProducto.restar]
    · simp only [hj, hi, if_false, decide_False] at ih ⊢
      exact ih

theorem restar_zero (f : FilaProducto) : FilaProducto.restar 0 f = f := by
  simp [FilaProducto.restar]

theorem restar_restar (a b : ℚ) (f : FilaProducto) :
    FilaProducto.restar b (FilaProducto.restar a f) = FilaProducto.restar (a + b) f := by
  simp [FilaProducto.restar, sub_sub]

theorem map_restar_zero (l : List FilaProducto) : l.map (FilaProducto.restar 0) = l := by
  induction l with
  | nil => rfl
  | cons f l ih => simp [restar_zero, ih]

/-! ## Lemmas on the sale loop -/

theorem procesarItem_costos (e : EstadoVenta) (it : Item) :
    (procesarItem e it).tx.costos_y_precios = e.tx.costos_y_precios := by
  unfold procesarItem
  split <;> simp [descontarStock]

theorem procesarItem_ventas (e : EstadoVenta) (it : Item) :
    (procesarItem e it).tx.ventas = e.tx.ventas := by
  unfold procesarItem
  split <;> simp [descontarStock]

theorem procesarItem_detalle (e : EstadoVenta) (it : Item) :
    (procesarItem e it).tx.detalle_ventas = e.tx.detalle_ventas := by
  unfold procesarItem
  split <;> simp [descontarStock]

theorem procesarItem_seq (e : EstadoVenta) (it : Item) :
    (procesarItem e it).tx.ventas_id_seq = e.tx.ventas_id_seq := by
  unfold procesarItem
  split <;> simp [descontarStock]

theorem selectProducto_procesarItem (e : EstadoVenta) (it : Item) (i : Nat) :
    selectProducto (procesarItem e it).tx i =
      (selectProducto e.tx i).map
        (FilaProducto.restar (if it.id_producto = i then it.cantidad else 0)) := by
  unfold procesarItem
  split
  · rename_i h
    by_cases hi : it.id_producto = i
    · subst hi
      simp [h]
    · simp [hi, map_restar_zero]
  · simp only [selectProducto_descontarStock]
    by_cases hi : it.id_producto = i
    · simp [hi]
    · have : ¬ i = it.id_producto := fun h => hi h.symm
      simp [hi, this]

theorem bucle_costos (items : List Item) (e : EstadoVenta) :
    (items.foldl procesarItem e).tx.costos_y_precios = e.tx.costos_y_precios := by
  induction items generalizing e with
  | nil => rfl
  | cons it rest ih => rw [List.foldl_cons, ih, procesarItem_costos]

theorem bucle_ventas (items : List Item) (e : EstadoVenta) :
    (items.foldl procesarItem e).tx.ventas = e.tx.ventas := by
  induction items generalizing e with
  | nil => rfl
  | cons it rest ih => rw [List.foldl_cons, ih, procesarItem_ventas]

theorem bucle_detalle (items : List Item) (e : EstadoVenta) :
    (items.foldl procesarItem e).tx.detalle_ventas = e.tx.detalle_ventas := by
  induction items generalizing e with
  | nil => rfl
  | cons it rest ih => rw [List.foldl_cons, ih, procesarItem_detalle]

theorem bucle_seq (items : List Item) (e : EstadoVenta) :
    (items.foldl procesarItem e).tx.ventas_id_seq = e.tx.ventas_id_seq := by
  induction items generalizing e with
  | nil => rfl
  | cons it rest ih => rw [List.foldl_cons, ih, procesarItem_seq]

/-- The rows the loop's `SELECT` returns after a run of the loop: those of
the start, with the quantity requested so far subtracted from the stock. -/
theorem selectProducto_bucle (items : List Item) (e : EstadoVenta) (i : Nat) :
    selectProducto (items.foldl procesarItem e).tx i =
      (selectProducto e.tx i).map (FilaProducto.restar (demanda items i)) := by
  induction items generalizing e with
  | nil => simp [demanda_nil, map_restar_zero]
  | cons it rest ih =>
    rw [List.foldl_cons, ih, selectProducto_procesarItem, List.map_map, demanda_cons]
    apply List.map_congr_left
    intro f _
    simp [restar_restar]

theorem procesarItem_errores_ne_nil (e : EstadoVenta) (it : Item)
    (h : e.erroresStock ≠ []) : (procesarItem e it).erroresStock ≠ [] := by
  unfold procesarItem
  split
  · simp
  · simp only
    split
    · simp
    · exact h

theorem bucle_errores_ne_nil (items : List Item) (e : EstadoVenta)
    (h : e.erroresStock ≠ []) : (items.foldl procesarItem e).erroresStock ≠ [] := by
  induction items generalizing e with
  | nil => exact h
  | cons it rest ih =>
    rw [List.foldl_cons]
    exact ih _ (procesarItem_errores_ne_nil e it h)

/-- The loop ends without a recorded error exactly when it started without
one and every item is fulfillable in input order. -/
theorem bucle_errores_nil_iff (s : Store) (items previos : List Item) (e : EstadoVenta)
    (hinv : ∀ i, selectProducto e.tx i =
      (selectProducto s i).map (FilaProducto.restar (demanda previos i))) :
    (items.foldl procesarItem e).erroresStock = [] ↔
      e.erroresStock = [] ∧ Surtible s previos items := by
  induction items generalizing e previos with
  | nil => simp [Surtible]
  | cons it rest ih =>
    have hinv' : ∀ i, selectProducto (procesarItem e it).tx i =
        (selectProducto s i).map (FilaProducto.restar (demanda (previos ++ [it]) i)) := by
      intro i
      rw [selectProducto_procesarItem, hinv, List.map_map, demanda_append, demanda_cons,
        demanda_nil]
      apply List.map_congr_left
      intro f _
      simp [restar_restar]
    rw [List.foldl_cons, ih (previos ++ [it]) (procesarItem e it) hinv']
    simp only [Surtible, Cabe]
    have hsel := hinv it.id_producto
    constructor
    · rintro ⟨h1, h2⟩
      refine ⟨?_, ?_, h2⟩
      · by_contra hne
        exact procesarItem_errores_ne_nil e it hne h1
      · unfold procesarItem at h1
        cases hs : selectProducto s it.id_producto with
        | nil =>
          rw [hs] at hsel
          simp [hsel] at h1
        | cons f r =>
          rw [hs] at hsel
          simp only [List.map_cons] at hsel
          simp only [hsel] at h1
          refine ⟨f, r, rfl, ?_⟩
          by_contra hlt
          have : (FilaProducto.restar (demanda previos it.id_producto) f).stock_actual <
              it.cantidad := by
            simp only [FilaProducto.restar]
            linarith [not_le.1 hlt]
          simp [this] at h1
    · rintro ⟨h1, ⟨f, r, hs, hle⟩, h2⟩
      refine ⟨?_, h2⟩
      rw [hs] at hsel
      simp only [List.map_cons] at hsel
      unfold procesarItem
      simp only [hsel]
      have : ¬ (FilaProducto.restar (demanda previos it.id_producto) f).stock_actual <
          it.cantidad := by
        simp only [FilaProducto.restar]
        intro h
        linarith
      simp [this, h1]

theorem precioLeido_procesarItem (e : EstadoVenta) (it : Item) (i : Nat) :
    precioLeido (procesarItem e it).tx i = precioLeido e.tx i := by
  unfold precioLeido
  rw [selectProducto_procesarItem]
  cases selectProducto e.tx i <;> simp [FilaProducto.restar]

theorem procesarItem_items (e : EstadoVenta) (it : Item) :
    (procesarItem e it).items = e.items ++ [anotar e.tx it] := by
  unfold procesarItem anotar precioLeido
  split <;> rename_i h <;> simp [h]

theorem procesarItem_total (e : EstadoVenta) (it : Item) :
    (procesarItem e it).totalVenta = sumarImporte e.tx e.totalVenta it := by
  unfold procesarItem sumarImporte precioLeido
  split <;> rename_i h <;> simp [h]

theorem bucle_items (items : List Item) (e : EstadoVenta) :
    (items.foldl procesarItem e).items = e.items ++ items.map (anotar e.tx) := by
  induction items generalizing e with
  | nil => simp
  | cons it rest ih =>
    rw [List.foldl_cons, ih, procesarItem_items]
    have : anotar (procesarItem e it).tx = anotar e.tx := by
      funext x
      simp [anotar, precioLeido_procesarItem]
    simp [this]

theorem bucle_total (items : List Item) (e : EstadoVenta) :
    (items.foldl procesarItem e).totalVenta =
      items.foldl (sumarImporte e.tx) e.totalVenta := by
  induction items generalizing e with
  | nil => rfl
  | cons it rest ih =>
    rw [List.foldl_cons, List.foldl_cons, ih, procesarItem_total]
    have : sumarImporte (procesarItem e it).tx = sumarImporte e.tx := by
      funext t x
      simp [sumarImporte, precioLeido_procesarItem]
    rw [this]

/-- The product rows after a run of the loop in which every product was
found: each stock is reduced by the quantity requested of that product. -/
theorem bucle_productos (items : List Item) (e : EstadoVenta)
    (h : ∀ it ∈ items, selectProducto e.tx it.id_producto ≠ []) :
    (items.foldl procesarItem e).tx.productos =
      e.tx.productos.map
        (fun p => { p with stock_actual := p.stock_actual - demanda items p.id }) := by
  induction items generalizing e with
  | nil => simp [demanda_nil]
  | cons it rest ih =>
    have h' : ∀ x ∈ rest, selectProducto (procesarItem e it).tx x.id_producto ≠ [] := by
      intro x hx
      rw [selectProducto_procesarItem]
      simpa using h x (List.mem_cons_of_mem _ hx)
    rw [List.foldl_cons, ih _ h']
    have hit := h it (List.mem_cons_self _ _)
    have htx : (procesarItem e it).tx.productos =
        (descontarStock it.cantidad it.id_producto e.tx).productos := by
      unfold procesarItem
      split
      · rename_i hnil
        exact absurd hnil hit
      · rfl
    rw [htx]
    simp only [descontarStock, List.map_map]
    apply List.map_congr_left
    intro p _
    by_cases hp : p.id = it.id_producto
    · have hp' : it.id_producto = p.id := hp.symm
      simp [hp, demanda_cons, sub_sub]
    · have hp' : ¬ it.id_producto = p.id := fun h => hp h.symm
      simp [hp, hp', demanda_cons]

theorem foldl_insertarDetalle (id_venta : Nat) (its : List Item) (t : Store) :
    its.foldl (insertarDetalle id_venta) t =
      { t with
        detalle_ventas := t.detalle_ventas ++ its.map (fun it =>
          { id_venta := id_venta, id_producto := it.id_producto,
            cantidad_vendida := it.cantidad,
            precio_unitario_momento := it.precio_unitario_momento }) } := by
  induction its generalizing t with
  | nil => simp
  | cons it rest ih =>
    rw [List.foldl_cons, ih]
    simp [insertarDetalle]

theorem surtible_encontrado (s : Store) (items previos : List Item)
    (h : Surtible s previos items) :
    ∀ it ∈ items, selectProducto s it.id_producto ≠ [] := by
  induction items generalizing previos with
  | nil => simp
  | cons a rest ih =>
    obtain ⟨⟨f, r, hs, _⟩, h2⟩ := h
    intro it hit
    rcases List.mem_cons.1 hit with rfl | hmem
    · simp [hs]
    · exact ih _ h2 it hmem

theorem detalle_anotar (s : Store) (id_venta : Nat) (it : Item)
    (h : selectProducto s it.id_producto ≠ []) :
    ({ id_venta := id_venta, id_producto := (anotar s it).id_producto,
       cantidad_vendida := (anotar s it).cantidad,
       precio_unitario_momento := (anotar s it).precio_unitario_momento } : DetalleVenta) =
      detalleDe s id_venta it := by
  unfold anotar detalleDe precioLeido
  cases hs : selectProducto s it.id_producto with
  | nil => exact absurd hs h
  | cons f r => simp

/-- A fulfillable non-empty cart commits, with the store `tiendaTrasVenta`. -/
theorem postVentas_of_surtible (ahora : Nat) (items : List Item) (s : Store)
    (hne : items ≠ []) (hs : Surtible s [] items) :
    postVentas ahora items s =
      (.registrada201
        { id := s.ventas_id_seq, fecha := ahora,
          total := toFixed2 (items.foldl (sumarImporte s) (.fin 0)) } items.length,
       tiendaTrasVenta ahora items s) := by
  have hlen : ¬ items.length = 0 := by
    simpa [List.length_eq_zero] using hne
  have herr : (items.foldl procesarItem
      { tx := s, totalVenta := .fin 0, erroresStock := [], items := [] }).erroresStock = [] := by
    rw [bucle_errores_nil_iff s items [] _ (by intro i; simp [demanda_nil, map_restar_zero])]
    exact ⟨rfl, hs⟩
  have hfound := surtible_encontrado s items [] hs
  unfold postVentas
  simp only [hlen, if_false, herr, List.length_nil, gt_iff_lt, lt_self_iff_false]
  rw [foldl_insertarDetalle, bucle_items, bucle_total, bucle_seq, bucle_ventas, bucle_costos,
    bucle_detalle, bucle_productos items _ hfound]
  simp only [List.nil_append, List.map_map, tiendaTrasVenta]
  congr 2
  congr 1
  apply List.map_congr_left
  intro it hit
  exact detalle_anotar s _ it (hfound it hit)

/-- A non-empty cart that is not fulfillable is rejected and rolled back. -/
theorem postVentas_of_not_surtible (ahora : Nat) (items : List Item) (s : Store)
    (hne : items ≠ []) (hs : ¬ Surtible s [] items) :
    ∃ details, details ≠ [] ∧ postVentas ahora items s = (.errorStock400 details, s) := by
  have hlen : ¬ items.length = 0 := by
    simpa [List.length_eq_zero] using hne
  have herr : (items.foldl procesarItem
      { tx := s, totalVenta := .fin 0, erroresStock := [], items := [] }).erroresStock ≠ [] := by
    rw [Ne, bucle_errores_nil_iff s items [] _ (by intro i; simp [demanda_nil, map_restar_zero])]
    exact fun h => hs h.2
  refine ⟨_, herr, ?_⟩
  unfold postVentas
  have hpos : (items.foldl procesarItem
      { tx := s, totalVenta := .fin 0, erroresStock := [], items := [] }).erroresStock.length > 0 :=
    List.length_pos.2 herr
  simp only [hlen, if_false, hpos, if_true]

theorem surtible_of_registrada (ahora : Nat) (items : List Item) (s : Store)
    (h : (postVentas ahora items s).1.status = 201) : items ≠ [] ∧ Surtible s [] items := by
  have hne : items ≠ [] := by
    rintro rfl
    simp [postVentas, RespVenta.status] at h
  refine ⟨hne, ?_⟩
  by_contra hs
  obtain ⟨details, _, heq⟩ := postVentas_of_not_surtible ahora items s hne hs
  rw [heq] at h
  simp [RespVenta.status] at h

theorem demanda_eq_zero (items : List Item) (i : Nat)
    (h : ∀ it ∈ items, it.id_producto ≠ i) : demanda items i = 0 := by
  induction items with
  | nil => exact demanda_nil i
  | cons a rest ih =>
    rw [demanda_cons, ih (fun x hx => h x (List.mem_cons_of_mem _ hx))]
    simp [h a (List.mem_cons_self _ _)]

theorem selectProducto_nil_of_noExiste (s : Store) (it : Item) (h : NoExiste s it) :
    selectProducto s it.id_producto = [] := by
  unfold selectProducto
  have : s.productos.filter (fun p => p.id = it.id_producto) = [] := by
    rw [List.filter_eq_nil_iff]
    intro p hp
    simpa using h p hp
  rw [this]
  rfl

/-- In a fulfillable cart of non-negative quantities no item exceeds the
stock on hand of the store. -/
theorem surtible_le_stock (s : Store) (items previos : List Item)
    (hs : Surtible s previos items) (hprev : ∀ it ∈ previos, 0 ≤ it.cantidad)
    (hpos : ∀ it ∈ items, 0 ≤ it.cantidad) :
    ∀ it ∈ items, ∃ fila resto, selectProducto s it.id_producto = fila :: resto ∧
      it.cantidad ≤ fila.stock_actual := by
  induction items generalizing previos with
  | nil => simp
  | cons a rest ih =>
    obtain ⟨⟨f, r, hsel, hle⟩, h2⟩ := hs
    have ha : 0 ≤ a.cantidad := hpos a (List.mem_cons_self _ _)
    intro it hit
    rcases List.mem_cons.1 hit with heq | hmem
    · rw [heq]
      exact ⟨f, r, hsel, by linarith [demanda_nonneg previos a.id_producto hprev]⟩
    · refine ih (previos ++ [a]) h2 ?_ (fun x hx => hpos x (List.mem_cons_of_mem _ hx))
        it hmem
      intro x hx
      rcases List.mem_append.1 hx with hx | hx
      · exact hprev x hx
      · rw [List.mem_singleton.1 hx]
        exact ha

/-- In a fulfillable cart the whole quantity requested of a product fits in
the stock the `SELECT` reads for it. -/
theorem surtible_demanda_le (s : Store) (items previos : List Item)
    (hs : Surtible s previos items) (i : Nat) (hi : ∃ it ∈ items, it.id_producto = i) :
    ∃ fila resto, selectProducto s i = fila :: resto ∧
      demanda (previos ++ items) i ≤ fila.stock_actual := by
  induction items generalizing previos with
  | nil => simp at hi
  | cons a rest ih =>
    obtain ⟨hcabe, h2⟩ := hs
    by_cases hrest : ∃ it ∈ rest, it.id_producto = i
    · obtain ⟨f, r, hsel, hle⟩ := ih (previos ++ [a]) h2 hrest
      refine ⟨f, r, hsel, ?_⟩
      simpa using hle
    · have hrest' : ∀ it ∈ rest, it.id_producto ≠ i := by
        intro it hit hid
        exact hrest ⟨it, hit, hid⟩
      have ha : a.id_producto = i := by
        obtain ⟨it, hit, hid⟩ := hi
        rcases List.mem_cons.1 hit with heq | hmem
        · rw [← heq]
          exact hid
        · exact absurd hid (hrest' it hmem)
      obtain ⟨f, r, hsel, hle⟩ := hcabe
      rw [ha] at hsel hle
      refine ⟨f, r, hsel, ?_⟩
      rw [demanda_append, demanda_cons, demanda_eq_zero rest i hrest']
      simp only [ha, if_true, add_zero]
      exact hle

/-- With `id` a key of `productos`, the stock the `SELECT` reads for a
product is the stock of its row. -/
theorem stock_leido_eq (s : Store) (hkey : (s.productos.map (fun p => p.id)).Nodup)
    (p : Producto) (hp : p ∈ s.productos) (fila : FilaProducto) (resto : List FilaProducto)
    (hsel : selectProducto s p.id = fila :: resto) : fila.stock_actual = p.stock_actual := by
  have hmem : fila ∈ selectProducto s p.id := by
    rw [hsel]
    exact List.mem_cons_self _ _
  unfold selectProducto at hmem
  rw [List.mem_flatMap] at hmem
  obtain ⟨p', hp', hf⟩ := hmem
  rw [List.mem_filter] at hp'
  rw [List.mem_map] at hf
  obtain ⟨cp, _, hcp⟩ := hf
  have hid : p'.id = p.id := by simpa using hp'.2
  have : p' = p := List.inj_on_of_nodup_map hkey hp'.1 hp hid
  rw [← hcp, this]

theorem round2_eq_of_nonneg (x : ℚ) (n : ℤ) (h0 : 0 ≤ x) (h1 : (n : ℚ) ≤ x * 100 + 1 / 2)
    (h2 : x * 100 + 1 / 2 < n + 1) : round2 x = n / 100 := by
  unfold round2
  rw [if_pos h0, (Int.floor_eq_iff).2 ⟨h1, h2⟩]

theorem round2_eq_of_neg (x : ℚ) (n : ℤ) (h0 : x < 0) (h1 : (n : ℚ) ≤ -x * 100 + 1 / 2)
    (h2 : -x * 100 + 1 / 2 < n + 1) : round2 x = -(n / 100) := by
  unfold round2
  rw [if_neg (not_le.2 h0), (Int.floor_eq_iff).2 ⟨h1, h2⟩]

/-! ## Lemmas on doubles -/

theorem redondeoPar_eq_of_lt_half (y : ℚ) (f : ℤ) (h1 : (f : ℚ) ≤ y) (h2 : y - f < 1 / 2) :
    redondeoPar y = f := by
  have hf : ⌊y⌋ = f := Int.floor_eq_iff.2 ⟨h1, by linarith⟩
  unfold redondeoPar
  rw [hf, if_pos h2]

theorem log2_eq (x : ℚ) (e : ℤ) (hx : x ≠ 0) (h1 : (2 : ℚ) ^ e ≤ |x|)
    (h2 : |x| < (2 : ℚ) ^ (e + 1)) : Int.log 2 |x| = e := by
  have hpos : 0 < |x| := abs_pos.2 hx
  have h1' : ((2 : ℕ) : ℚ) ^ e ≤ |x| := by simpa using h1
  have h2' : |x| < ((2 : ℕ) : ℚ) ^ (e + 1) := by simpa using h2
  have ha := (Int.zpow_le_iff_le_log (by norm_num : 1 < 2) hpos).1 h1'
  have hb := (Int.lt_zpow_iff_log_lt (by norm_num : 1 < 2) hpos).1 h2'
  omega

/-- Evaluation of `aDoble` in the normal range: with `2^e <= |x| < 2^(e+1)`,
the result is `m * 2^(e-52)` for the integer `m` nearest to `x / 2^(e-52)`. -/
theorem aDoble_eq (x : ℚ) (e m : ℤ) (hx : x ≠ 0) (he : -1022 ≤ e)
    (h1 : (2 : ℚ) ^ e ≤ |x|) (h2 : |x| < (2 : ℚ) ^ (e + 1))
    (hm : redondeoPar (x / (2 : ℚ) ^ (e - 52)) = m)
    (hfin : |(m : ℚ) * (2 : ℚ) ^ (e - 52)| < 2 ^ (1024 : ℕ)) :
    aDoble x = .fin (m * (2 : ℚ) ^ (e - 52)) := by
  unfold aDoble
  rw [if_neg hx]
  simp only [log2_eq x e hx h1 h2, max_eq_left he, hm]
  rw [if_neg (not_le.2 hfin)]

/-- The double nearest to 1.15 lies below it. -/
theorem aDoble_23_20 : aDoble (23 / 20) = .fin (2589569785738035 / 2251799813685248) := by
  have h := aDoble_eq (23 / 20) 0 5179139571476070 (by norm_num) (by norm_num)
    (by norm_num [abs_of_pos]) (by norm_num [abs_of_pos])
    (redondeoPar_eq_of_lt_half _ _ (by norm_num) (by norm_num)) (by norm_num [abs_of_pos])
  rw [h]
  norm_num

theorem aDoble_half : aDoble (1 / 2) = .fin (1 / 2) := by
  have h := aDoble_eq (1 / 2) (-1) 4503599627370496 (by norm_num) (by norm_num)
    (by norm_num [abs_of_pos]) (by norm_num [abs_of_pos])
    (redondeoPar_eq_of_lt_half _ _ (by norm_num) (by norm_num)) (by norm_num [abs_of_pos])
  rw [h]
  norm_num

theorem aDoble_neg_half : aDoble (-(1 / 2)) = .fin (-(1 / 2)) := by
  have h := aDoble_eq (-(1 / 2)) (-1) (-4503599627370496) (by norm_num) (by norm_num)
    (by norm_num [abs_of_pos]) (by norm_num [abs_of_pos])
    (redondeoPar_eq_of_lt_half _ _ (by norm_num) (by norm_num)) (by norm_num [abs_of_pos])
  rw [h]
  norm_num

/-- The product of the doubles of 1.15 and 0.5 is exact, and below 0.575. -/
theorem aDoble_medio_cable :
    aDoble (2589569785738035 / 4503599627370496) =
      .fin (2589569785738035 / 4503599627370496) := by
  have h := aDoble_eq (2589569785738035 / 4503599627370496) (-1) 5179139571476070
    (by norm_num) (by norm_num) (by norm_num [abs_of_pos]) (by norm_num [abs_of_pos])
    (redondeoPar_eq_of_lt_half _ _ (by norm_num) (by norm_num)) (by norm_num [abs_of_pos])
  rw [h]
  norm_num

theorem aDoble_neg_medio_cable :
    aDoble (-(2589569785738035 / 4503599627370496)) =
      .fin (-(2589569785738035 / 4503599627370496)) := by
  have h := aDoble_eq (-(2589569785738035 / 4503599627370496)) (-1) (-5179139571476070)
    (by norm_num) (by norm_num) (by norm_num [abs_of_pos]) (by norm_num [abs_of_pos])
    (redondeoPar_eq_of_lt_half _ _ (by norm_num) (by norm_num)) (by norm_num [abs_of_pos])
  rw [h]
  norm_num

theorem aDoble_2 : aDoble 2 = .fin 2 := by
  have h := aDoble_eq 2 1 4503599627370496 (by norm_num) (by norm_num)
    (by norm_num [abs_of_pos]) (by norm_num [abs_of_pos])
    (redondeoPar_eq_of_lt_half _ _ (by norm_num) (by norm_num)) (by norm_num [abs_of_pos])
  rw [h]
  norm_num

theorem aDoble_120 : aDoble 120 = .fin 120 := by
  have h := aDoble_eq 120 6 8444249301319680 (by norm_num) (by norm_num)
    (by norm_num [abs_of_pos]) (by norm_num [abs_of_pos])
    (redondeoPar_eq_of_lt_half _ _ (by norm_num) (by norm_num)) (by norm_num [abs_of_pos])
  rw [h]
  norm_num

theorem aDoble_240 : aDoble 240 = .fin 240 := by
  have h := aDoble_eq 240 7 8444249301319680 (by norm_num) (by norm_num)
    (by norm_num [abs_of_pos]) (by norm_num [abs_of_pos])
    (redondeoPar_eq_of_lt_half _ _ (by norm_num) (by norm_num)) (by norm_num [abs_of_pos])
  rw [h]
  norm_num

/-- In doubles, half a metre at 1.15 totals 0.57. -/
theorem total_medio_cable :
    toFixed2 ((JsNum.fin 0).add ((parseFloat (23 / 20)).mul (parseFloat (1 / 2)))) =
      .fin (57 / 100) := by
  have hmul : (2589569785738035 / 2251799813685248 : ℚ) * (1 / 2) =
      2589569785738035 / 4503599627370496 := by norm_num
  have hadd : (0 : ℚ) + 2589569785738035 / 4503599627370496 =
      2589569785738035 / 4503599627370496 := by norm_num
  have hlt : |(2589569785738035 / 4503599627370496 : ℚ)| < 10 ^ (21 : ℕ) := by
    norm_num [abs_of_pos]
  have hr := round2_eq_of_nonneg (2589569785738035 / 4503599627370496) 57 (by norm_num)
    (by norm_num) (by norm_num)
  simp only [parseFloat, aDoble_23_20, aDoble_half, JsNum.mul, JsNum.add, hmul, hadd,
    aDoble_medio_cable, toFixed2, if_pos hlt, hr]
  norm_num

/-- In doubles, minus half a metre at 1.15 totals -0.57. -/
theorem total_menos_medio_cable :
    toFixed2 ((JsNum.fin 0).add ((parseFloat (23 / 20)).mul (parseFloat (-(1 / 2))))) =
      .fin (-(57 / 100)) := by
  have hmul : (2589569785738035 / 2251799813685248 : ℚ) * (-(1 / 2)) =
      -(2589569785738035 / 4503599627370496) := by norm_num
  have hadd : (0 : ℚ) + -(2589569785738035 / 4503599627370496) =
      -(2589569785738035 / 4503599627370496) := by norm_num
  have hlt : |(-(2589569785738035 / 4503599627370496) : ℚ)| < 10 ^ (21 : ℕ) := by
    norm_num [abs_of_pos]
  have hr := round2_eq_of_neg (-(2589569785738035 / 4503599627370496)) 57 (by norm_num)
    (by norm_num) (by norm_num)
  simp only [parseFloat, aDoble_23_20, aDoble_neg_half, JsNum.mul, JsNum.add, hmul, hadd,
    aDoble_neg_medio_cable, toFixed2, if_pos hlt, hr]
  norm_num

/-- In doubles, two hammers at 120 total 240. -/
theorem total_dos_martillos :
    toFixed2 ((JsNum.fin 0).add ((parseFloat 120).mul (parseFloat 2))) = .fin 240 := by
  have hmul : (120 : ℚ) * 2 = 240 := by norm_num
  have hadd : (0 : ℚ) + 240 = 240 := by norm_num
  have hlt : |(240 : ℚ)| < 10 ^ (21 : ℕ) := by norm_num [abs_of_pos]
  have hr := round2_eq_of_nonneg 240 24000 (by norm_num) (by norm_num) (by norm_num)
  simp only [parseFloat, aDoble_120, aDoble_2, JsNum.mul, JsNum.add, hmul, hadd, aDoble_240,
    toFixed2, if_pos hlt, hr]
  norm_num

/-! ## The claims -/

/-- C1, as stated, fails: in the example store (hammer, stock 5) the cart
`[hammer x -3, hammer x 7]` is not empty and its second item requests more
than the hammer's stock on hand, yet the sale commits with status 201 and the
store changes (the hammer's stock becomes 1). -/
theorem c1_contraejemplo_cantidad_negativa :
    ([⟨1, -3, none⟩, ⟨1, 7, none⟩] : List Item) ≠ [] ∧
    (∃ it ∈ ([⟨1, -3, none⟩, ⟨1, 7, none⟩] : List Item),
      NoExiste tiendaEjemplo it ∨ ExcedeStock tiendaEjemplo it) ∧
    (postVentas 9 [⟨1, -3, none⟩, ⟨1, 7, none⟩] tiendaEjemplo).1.status = 201 ∧
    (postVentas 9 [⟨1, -3, none⟩, ⟨1, 7, none⟩] tiendaEjemplo).2.productos =
      [⟨1, "Martillo", "M-1", 1⟩, ⟨2, "Clavo", "C-1", 100⟩] ∧
    (postVentas 9 [⟨1, -3, none⟩, ⟨1, 7, none⟩] tiendaEjemplo).2 ≠ tiendaEjemplo := by
  have hprod : (postVentas 9 [⟨1, -3, none⟩, ⟨1, 7, none⟩] tiendaEjemplo).2.productos =
      [⟨1, "Martillo", "M-1", 1⟩, ⟨2, "Clavo", "C-1", 100⟩] := by
    norm_num [postVentas, procesarItem, selectProducto, descontarStock, tiendaEjemplo,
      insertarDetalle]
  refine ⟨by simp, ⟨⟨1, 7, none⟩, by simp, Or.inr ⟨⟨"Martillo", 5, 120⟩, [], ?_, ?_⟩⟩, ?_,
    hprod, ?_⟩
  · simp [selectProducto, tiendaEjemplo]
  · norm_num
  · norm_num [postVentas, procesarItem, selectProducto, descontarStock, tiendaEjemplo,
      RespVenta.status]
  · intro h
    rw [h] at hprod
    norm_num [tiendaEjemplo] at hprod

/-- C1 (amended): whole-or-nothing.  For every store and every non-empty cart
of non-negative quantities, if some item names a product that does not exist
(or that has no price row) or requests more than that product's stock on
hand, `POST /ventas` answers 400 with a non-empty list of per-item errors and
returns the store it was given: no stock changed, no sale or detail row
added. -/
theorem c1_venta_rechazada_todo_o_nada (ahora : Nat) (items : List Item) (s : Store)
    (hne : items ≠ []) (hpos : ∀ it ∈ items, 0 ≤ it.cantidad)
    (hbad : ∃ it ∈ items,
      NoExiste s it ∨ selectProducto s it.id_producto = [] ∨ ExcedeStock s it) :
    (postVentas ahora items s).1.status = 400 ∧
    (∃ details, details ≠ [] ∧ (postVentas ahora items s).1 = .errorStock400 details) ∧
    (postVentas ahora items s).2 = s := by
  have hns : ¬ Surtible s [] items := by
    intro hs
    obtain ⟨it, hit, hcase⟩ := hbad
    obtain ⟨f, r, hsel, hle⟩ := surtible_le_stock s items [] hs (by simp) hpos it hit
    rcases hcase with hno | hnil | ⟨f', r', hsel', hlt⟩
    · rw [selectProducto_nil_of_noExiste s it hno] at hsel
      exact List.noConfusion hsel
    · rw [hnil] at hsel
      exact List.noConfusion hsel
    · rw [hsel] at hsel'
      have hff : f = f' := (List.cons.inj hsel').1
      rw [← hff] at hlt
      exact absurd hle (not_le.2 hlt)
  obtain ⟨details, hd, heq⟩ := postVentas_of_not_surtible ahora items s hne hns
  rw [heq]
  exact ⟨rfl, ⟨details, hd, rfl⟩, rfl⟩

/-- Witness of C1 (amended): stock 5, request 6, and the cart of a valid item
(nails x 2) with an unfulfillable one (hammer x 6). -/
theorem c1_venta_rechazada_todo_o_nada_witness :
    (postVentas 9 [⟨2, 2, none⟩, ⟨1, 6, none⟩] tiendaEjemplo).1.status = 400 ∧
    (∃ details, details ≠ [] ∧
      (postVentas 9 [⟨2, 2, none⟩, ⟨1, 6, none⟩] tiendaEjemplo).1 = .errorStock400 details) ∧
    (postVentas 9 [⟨2, 2, none⟩, ⟨1, 6, none⟩] tiendaEjemplo).2 = tiendaEjemplo :=
  c1_venta_rechazada_todo_o_nada 9 [⟨2, 2, none⟩, ⟨1, 6, none⟩] tiendaEjemplo (by simp)
    (by
      intro it hit
      simp only [List.mem_cons, List.mem_singleton, List.not_mem_nil, or_false] at hit
      rcases hit with rfl | rfl <;> norm_num)
    ⟨⟨1, 6, none⟩, by simp,
      Or.inr (Or.inr
        ⟨⟨"Martillo", 5, 120⟩, [], by simp [selectProducto, tiendaEjemplo], by norm_num⟩)⟩

/-- C2: for every store whose product ids are a key and whose stocks are all
non-negative, and every cart (repeated products and negative quantities
included), if `POST /ventas` commits (status 201) then every stock of the
resulting store is non-negative. -/
theorem c2_stock_no_negativo (ahora : Nat) (items : List Item) (s : Store)
    (hkey : (s.productos.map (fun p => p.id)).Nodup)
    (hstock : ∀ p ∈ s.productos, 0 ≤ p.stock_actual)
    (hok : (postVentas ahora items s).1.status = 201) :
    ∀ p ∈ (postVentas ahora items s).2.productos, 0 ≤ p.stock_actual := by
  obtain ⟨hne, hs⟩ := surtible_of_registrada ahora items s hok
  rw [postVentas_of_surtible ahora items s hne hs]
  intro p hp
  simp only [tiendaTrasVenta, List.mem_map] at hp
  obtain ⟨p0, hp0, rfl⟩ := hp
  simp only
  by_cases hin : ∃ it ∈ items, it.id_producto = p0.id
  · obtain ⟨f, r, hsel, hle⟩ := surtible_demanda_le s items [] hs p0.id hin
    rw [stock_leido_eq s hkey p0 hp0 f r hsel] at hle
    simp only [List.nil_append] at hle
    linarith
  · have hz : demanda items p0.id = 0 :=
      demanda_eq_zero items p0.id (fun it hit hid => hin ⟨it, hit, hid⟩)
    rw [hz]
    linarith [hstock p0 hp0]

/-- Witness of C2: the hammer (stock 5) named by two items, 2 and 3 units. -/
theorem c2_stock_no_negativo_witness :
    (tiendaEjemplo.productos.map (fun p => p.id)).Nodup ∧
    (∀ p ∈ tiendaEjemplo.productos, 0 ≤ p.stock_actual) ∧
    (postVentas 9 [⟨1, 2, none⟩, ⟨1, 3, none⟩] tiendaEjemplo).1.status = 201 ∧
    ∀ p ∈ (postVentas 9 [⟨1, 2, none⟩, ⟨1, 3, none⟩] tiendaEjemplo).2.productos,
      0 ≤ p.stock_actual :=
  have hkey : (tiendaEjemplo.productos.map (fun p => p.id)).Nodup := by
    simp [tiendaEjemplo]
  have hstock : ∀ p ∈ tiendaEjemplo.productos, 0 ≤ p.stock_actual := by
    intro p hp
    simp only [tiendaEjemplo, List.mem_cons, List.mem_singleton, List.not_mem_nil,
      or_false] at hp
    rcases hp with rfl | rfl <;> norm_num
  have hok : (postVentas 9 [⟨1, 2, none⟩, ⟨1, 3, none⟩] tiendaEjemplo).1.status = 201 := by
    norm_num [postVentas, procesarItem, selectProducto, descontarStock, tiendaEjemplo,
      RespVenta.status]
  ⟨hkey, hstock, hok, c2_stock_no_negativo 9 _ tiendaEjemplo hkey hstock hok⟩

/-- C3 fails on the code: half a metre of cable at 1.15 commits with the
detail row (quantity 0.5, unit price 1.15) and the total 0.57, while the sum
of `quantity * unit_price_at_sale` over the detail rows of the sale, rounded
to two decimals, is 0.58.  The total is computed in doubles and the double of
1.15 lies below 1.15. -/
theorem c3_total_difiere_de_la_suma :
    postVentas 9 [⟨1, 1 / 2, none⟩] tiendaCable =
      (.registrada201 ⟨1, 9, .fin (57 / 100)⟩ 1,
       { productos := [⟨1, "Cable", "C-2", 19 / 2⟩]
         costos_y_precios := [⟨1, 7, 1, 15, 23 / 20, 0⟩]
         ventas := [⟨1, 9, .fin (57 / 100)⟩]
         detalle_ventas := [⟨1, 1, 1 / 2, some (23 / 20)⟩]
         ventas_id_seq := 2 }) ∧
    round2 ((([⟨1, 1, 1 / 2, some (23 / 20)⟩] : List DetalleVenta).map
      DetalleVenta.importe).sum) = 58 / 100 := by
  have hsel : selectProducto tiendaCable 1 = [⟨"Cable", 10, 23 / 20⟩] := by
    simp [selectProducto, tiendaCable]
  have hs : Surtible tiendaCable [] [⟨1, 1 / 2, none⟩] :=
    ⟨⟨⟨"Cable", 10, 23 / 20⟩, [], hsel, by norm_num [demanda]⟩, trivial⟩
  have hp : precioLeido tiendaCable 1 = some (23 / 20) := by
    simp [precioLeido, hsel]
  have ht : ([⟨1, 1 / 2, none⟩] : List Item).foldl (sumarImporte tiendaCable) (.fin 0) =
      (JsNum.fin 0).add ((parseFloat (23 / 20)).mul (parseFloat (1 / 2))) := by
    simp only [List.foldl_cons, List.foldl_nil, sumarImporte, hp]
  constructor
  · rw [postVentas_of_surtible 9 _ tiendaCable (by simp) hs, ht, total_medio_cable]
    simp only [tiendaTrasVenta, ht, total_medio_cable, detalleDe, hp, List.map_cons,
      List.map_nil]
    norm_num [tiendaCable, demanda]
  · have hr := round2_eq_of_nonneg (1 / 2 * (23 / 20)) 58 (by norm_num) (by norm_num)
      (by norm_num)
    simp only [List.map_cons, List.map_nil, DetalleVenta.importe, List.sum_cons, List.sum_nil,
      add_zero, hr]
    norm_num

/-- C4: for every store and every non-empty cart whose items all name a
product that is found and are fulfillable in input order, `POST /ventas`
answers 201 and reports `items_vendidos` = number of items; in the resulting
store every product row has its stock reduced by the total quantity the cart
requests of that product (so the rows of products not in the cart are
unchanged), `ventas` has gained exactly the returned sale row,
`detalle_ventas` has gained exactly one row per item, in input order, and
`costos_y_precios` is unchanged. -/
theorem c4_venta_surtible_registrada (ahora : Nat) (items : List Item) (s : Store)
    (hne : items ≠ []) (hs : Surtible s [] items) :
    (postVentas ahora items s).1.status = 201 ∧
    (∃ v, (postVentas ahora items s).1 = .registrada201 v items.length ∧
      (postVentas ahora items s).2.ventas = s.ventas ++ [v] ∧
      (postVentas ahora items s).2.detalle_ventas =
        s.detalle_ventas ++ items.map (fun it =>
          { id_venta := v.id, id_producto := it.id_producto,
            cantidad_vendida := it.cantidad,
            precio_unitario_momento := precioLeido s it.id_producto })) ∧
    (postVentas ahora items s).2.productos =
      s.productos.map
        (fun p => { p with stock_actual := p.stock_actual - demanda items p.id }) ∧
    (∀ i, (∀ it ∈ items, it.id_producto ≠ i) →
      (postVentas ahora items s).2.productos.filter (fun p => p.id = i) =
        s.productos.filter (fun p => p.id = i)) ∧
    (postVentas ahora items s).2.costos_y_precios = s.costos_y_precios := by
  rw [postVentas_of_surtible ahora items s hne hs]
  refine ⟨rfl, ⟨_, rfl, rfl, rfl⟩, rfl, ?_, rfl⟩
  intro i hi
  simp only [tiendaTrasVenta]
  have hz := demanda_eq_zero items i hi
  generalize s.productos = ps
  induction ps with
  | nil => rfl
  | cons p ps ih =>
    by_cases hp : p.id = i
    · subst hp
      simp only [List.map_cons, List.filter_cons, decide_True, if_true, hz, sub_zero, ih]
    · simp only [List.map_cons, List.filter_cons, hp, decide_False, if_false, ih]
      simp

/-- Witness of C4: two hammers and three nails from the example store. -/
theorem c4_venta_surtible_registrada_witness :
    ([⟨1, 2, none⟩, ⟨2, 3, none⟩] : List Item) ≠ [] ∧
    Surtible tiendaEjemplo [] [⟨1, 2, none⟩, ⟨2, 3, none⟩] ∧
    (postVentas 9 [⟨1, 2, none⟩, ⟨2, 3, none⟩] tiendaEjemplo).1.status = 201 ∧
    (postVentas 9 [⟨1, 2, none⟩, ⟨2, 3, none⟩] tiendaEjemplo).2.productos =
      [⟨1, "Martillo", "M-1", 3⟩, ⟨2, "Clavo", "C-1", 97⟩] :=
  have hs : Surtible tiendaEjemplo [] [⟨1, 2, none⟩, ⟨2, 3, none⟩] :=
    ⟨⟨⟨"Martillo", 5, 120⟩, [], by simp [selectProducto, tiendaEjemplo],
        by norm_num [demanda]⟩,
      ⟨⟨"Clavo", 100, 3 / 2⟩, [], by simp [selectProducto, tiendaEjemplo],
        by norm_num [demanda]⟩, trivial⟩
  have hc := c4_venta_surtible_registrada 9 [⟨1, 2, none⟩, ⟨2, 3, none⟩] tiendaEjemplo
    (by simp) hs
  ⟨by simp, hs, hc.1, by
    rw [hc.2.2.1]
    norm_num [tiendaEjemplo, demanda]⟩

/-- C5 fails on the code: with stock 5 the cart `[hammer x 6, hammer x 1]`
yields two errors.  The first item's decrement is staged although its check
failed, so the second item is checked against stock -1. -/
theorem c5_dos_errores_en_lugar_de_uno :
    postVentas 9 [⟨1, 6, none⟩, ⟨1, 1, none⟩] tiendaEjemplo =
      (.errorStock400
        [.stockInsuficiente "Martillo" 5 6, .stockInsuficiente "Martillo" (-1) 1],
       tiendaEjemplo) := by
  norm_num [postVentas, procesarItem, selectProducto, descontarStock, tiendaEjemplo]

/-- C10 fails on the code in the total: minus half a metre of cable (stock
10, unit price 1.15) is accepted, as the claim says, with status 201, the
stock raised to 10.5 and a detail row of quantity -0.5, but the total
recorded is -0.57 where `round2 (p * q)` is -0.58.  The total is computed in
doubles, the same defect as in C3. -/
theorem c10_total_negativo_difiere :
    postVentas 9 [⟨1, -(1 / 2), none⟩] tiendaCable =
      (.registrada201 ⟨1, 9, .fin (-(57 / 100))⟩ 1,
       { productos := [⟨1, "Cable", "C-2", 21 / 2⟩]
         costos_y_precios := [⟨1, 7, 1, 15, 23 / 20, 0⟩]
         ventas := [⟨1, 9, .fin (-(57 / 100))⟩]
         detalle_ventas := [⟨1, 1, -(1 / 2), some (23 / 20)⟩]
         ventas_id_seq := 2 }) ∧
    round2 (23 / 20 * -(1 / 2)) = -(58 / 100) := by
  have hsel : selectProducto tiendaCable 1 = [⟨"Cable", 10, 23 / 20⟩] := by
    simp [selectProducto, tiendaCable]
  have hs : Surtible tiendaCable [] [⟨1, -(1 / 2), none⟩] :=
    ⟨⟨⟨"Cable", 10, 23 / 20⟩, [], hsel, by norm_num [demanda]⟩, trivial⟩
  have hp : precioLeido tiendaCable 1 = some (23 / 20) := by
    simp [precioLeido, hsel]
  have ht : ([⟨1, -(1 / 2), none⟩] : List Item).foldl (sumarImporte tiendaCable) (.fin 0) =
      (JsNum.fin 0).add ((parseFloat (23 / 20)).mul (parseFloat (-(1 / 2)))) := by
    simp only [List.foldl_cons, List.foldl_nil, sumarImporte, hp]
  constructor
  · rw [postVentas_of_surtible 9 _ tiendaCable (by simp) hs, ht, total_menos_medio_cable]
    simp only [tiendaTrasVenta, ht, total_menos_medio_cable, detalleDe, hp, List.map_cons,
      List.map_nil]
    norm_num [tiendaCable, demanda]
  · have hr := round2_eq_of_neg (23 / 20 * -(1 / 2)) 58 (by norm_num) (by norm_num)
      (by norm_num)
    rw [hr]
    norm_num

/-! ### Repricing -/

theorem putPrecios_productos (ahora : Nat) (body : CuerpoPrecios) (s : Store) :
    (putPreciosActualizarProveedor ahora body s).2.productos = s.productos := by
  unfold putPreciosActualizarProveedor actualizarProveedor
  split <;> try rfl
  split <;> try rfl
  split <;> try rfl
  split <;> rfl

theorem putPrecios_ventas (ahora : Nat) (body : CuerpoPrecios) (s : Store) :
    (putPreciosActualizarProveedor ahora body s).2.ventas = s.ventas := by
  unfold putPreciosActualizarProveedor actualizarProveedor
  split <;> try rfl
  split <;> try rfl
  split <;> try rfl
  split <;> rfl

theorem putPrecios_detalle (ahora : Nat) (body : CuerpoPrecios) (s : Store) :
    (putPreciosActualizarProveedor ahora body s).2.detalle_ventas = s.detalle_ventas := by
  unfold putPreciosActualizarProveedor actualizarProveedor
  split <;> try rfl
  split <;> try rfl
  split <;> try rfl
  split <;> rfl

/-- The repricing request is answered 400 exactly when the supplier id is
absent or `0`, or the percentage is absent, `NaN` or zero. -/
theorem putPrecios_status_400_iff (ahora : Nat) (body : CuerpoPrecios) (s : Store) :
    (putPreciosActualizarProveedor ahora body s).1.status = 400 ↔
      body.id_proveedor = none ∨ body.id_proveedor = some 0 ∨
      body.porcentaje_aumento = none ∨ body.porcentaje_aumento = some .nan ∨
      body.porcentaje_aumento = some (.fin 0) := by
  obtain ⟨idp, pa⟩ := body
  rcases idp with _ | _ | k
  · simp [putPreciosActualizarProveedor, RespPrecios.status]
  · simp [putPreciosActualizarProveedor, RespPrecios.status]
  · rcases pa with _ | a
    · simp [putPreciosActualizarProveedor, RespPrecios.status]
    · rcases a with _ | b | q
      · simp [putPreciosActualizarProveedor, RespPrecios.status]
      · simp [putPreciosActualizarProveedor, RespPrecios.status]
      · by_cases hq : q = 0
        · simp [putPreciosActualizarProveedor, RespPrecios.status, hq]
        · by_cases hint : q.den = 1 ∧ -2147483648 ≤ q.num ∧ q.num ≤ 2147483647
          · simp [putPreciosActualizarProveedor, RespPrecios.status, hq, hint,
              actualizarProveedor]
          · simp [putPreciosActualizarProveedor, RespPrecios.status, hq, hint]

/-- C6 fails on the code: supplier 7 repriced by 10 on a row with cost 100,
margin 20 and sale price 120 is answered 200 with one row updated, and the row
keeps cost 100 and sale price 120 (the claim says 110 and 132): the
percentage reaches the statement as an `integer`, so `10 / 100` is 0.  A
percentage of 10.5, finite and non-zero, is answered 500. -/
theorem c6_diez_por_ciento_sin_efecto :
    putPreciosActualizarProveedor 3 ⟨some 7, some (.fin 10)⟩
        ⟨[], [⟨1, 7, 100, 20, 120, 0⟩], [], [], 1⟩ =
      (.actualizados200 1, ⟨[], [⟨1, 7, 100, 20, 120, 3⟩], [], [], 1⟩) ∧
    (putPreciosActualizarProveedor 3 ⟨some 7, some (.fin (21 / 2))⟩
        ⟨[], [⟨1, 7, 100, 20, 120, 0⟩], [], [], 1⟩).1 = .errorInterno500 := by
  have hdiv : Int.tdiv 10 100 = 0 := by decide
  have h120 : round2 120 = 120 := by
    have := round2_eq_of_nonneg 120 12000 (by norm_num) (by norm_num) (by norm_num)
    rw [this]
    norm_num
  constructor
  · simp only [putPreciosActualizarProveedor, actualizarProveedor, repreciarFila]
    rw [if_neg (by simp)]
    norm_num [hdiv, h120]
  · simp only [putPreciosActualizarProveedor]
    rw [if_neg (by simp)]
    norm_num

/-- C7 fails on the code: a percentage that `parseFloat` reads as `Infinity`
is not a finite number, yet the request is not answered 400; only `NaN` and
zero are rejected by the guard of line 171. -/
theorem c7_infinito_no_rechazado :
    (putPreciosActualizarProveedor 3 ⟨some 7, some (.inf false)⟩ tiendaEjemplo).1.status ≠ 400 := by
  simp [putPreciosActualizarProveedor, RespPrecios.status]

/-! ### Price stability -/

theorem fila_de_producto (s : Store) (i : Nat) (fila : FilaProducto)
    (h : fila ∈ selectProducto s i) :
    ∃ p ∈ s.productos, p.id = i ∧ fila.nombre = p.nombre ∧
      fila.stock_actual = p.stock_actual := by
  unfold selectProducto at h
  rw [List.mem_flatMap] at h
  obtain ⟨p, hp, hf⟩ := h
  rw [List.mem_filter] at hp
  rw [List.mem_map] at hf
  obtain ⟨cp, _, hcp⟩ := hf
  refine ⟨p, hp.1, by simpa using hp.2, ?_, ?_⟩ <;> rw [← hcp]

theorem getVentasId_congr (id_venta : Nat) (s t : Store) (hv : t.ventas = s.ventas)
    (hd : t.detalle_ventas = s.detalle_ventas) (hp : t.productos = s.productos) :
    getVentasId id_venta t = getVentasId id_venta s := by
  unfold getVentasId selectDetalle
  rw [hv, hd, hp]

/-- C8: price stability.  When `POST /ventas` answers 201 with sale row `v`
for a cart in which item `x` was read at unit price `P`, then after any
request to `PUT /precios/actualizar-proveedor` (whatever its supplier,
percentage and outcome), `GET /ventas/:id` for `v.id` returns exactly what it
returned before the repricing: a 200 whose sale row is `v` itself when no
older sale carries the same id, and whose detail holds a line for `x` with
the item's quantity, unit price `P` and the product's name. -/
theorem c8_precio_estable (ahora ahora2 : Nat) (items : List Item) (s : Store) (v : Venta)
    (n : Nat) (body : CuerpoPrecios) (x : Item) (fila : FilaProducto)
    (resto : List FilaProducto)
    (hventa : (postVentas ahora items s).1 = .registrada201 v n) (hx : x ∈ items)
    (hsel : selectProducto s x.id_producto = fila :: resto) :
    getVentasId v.id
        (putPreciosActualizarProveedor ahora2 body (postVentas ahora items s).2).2 =
      getVentasId v.id (postVentas ahora items s).2 ∧
    ∃ venta detalle,
      getVentasId v.id
          (putPreciosActualizarProveedor ahora2 body (postVentas ahora items s).2).2 =
        .ok200 venta detalle ∧
      venta.id = v.id ∧
      ((∀ w ∈ s.ventas, w.id ≠ v.id) → venta = v) ∧
      ∃ l ∈ detalle, l.cantidad_vendida = x.cantidad ∧
        l.precio_unitario_momento = some fila.precio_venta_final ∧
        l.nombre = fila.nombre := by
  have hcongr := getVentasId_congr v.id (postVentas ahora items s).2
    (putPreciosActualizarProveedor ahora2 body (postVentas ahora items s).2).2
    (putPrecios_ventas _ _ _) (putPrecios_detalle _ _ _) (putPrecios_productos _ _ _)
  refine ⟨hcongr, ?_⟩
  rw [hcongr]
  have hok : (postVentas ahora items s).1.status = 201 := by
    rw [hventa]
    rfl
  obtain ⟨hne, hs⟩ := surtible_of_registrada ahora items s hok
  rw [postVentas_of_surtible ahora items s hne hs] at hventa ⊢
  simp only [RespVenta.registrada201.injEq] at hventa
  obtain ⟨hv, _⟩ := hventa
  subst hv
  -- the line of `x`
  obtain ⟨p, hp, hpid, hnom, _⟩ := fila_de_producto s x.id_producto fila
    (by rw [hsel]; exact List.mem_cons_self _ _)
  have hlinea : (⟨x.cantidad, some fila.precio_venta_final, p.nombre, p.sku⟩ : LineaDetalle) ∈
      selectDetalle (tiendaTrasVenta ahora items s) s.ventas_id_seq := by
    unfold selectDetalle
    rw [List.mem_flatMap]
    refine ⟨detalleDe s s.ventas_id_seq x, ?_, ?_⟩
    · rw [List.mem_filter]
      refine ⟨?_, by simp [detalleDe]⟩
      simp only [tiendaTrasVenta]
      exact List.mem_append_right _ (List.mem_map_of_mem _ hx)
    · rw [List.mem_map]
      refine ⟨{ p with stock_actual := p.stock_actual - demanda items p.id }, ?_, ?_⟩
      · rw [List.mem_filter]
        refine ⟨?_, by simp [detalleDe, hpid]⟩
        simp only [tiendaTrasVenta]
        exact List.mem_map_of_mem _ hp
      · simp [detalleDe, precioLeido, hsel]
  have hfilter : (tiendaTrasVenta ahora items s).ventas.filter
      (fun w => w.id = s.ventas_id_seq) =
      s.ventas.filter (fun w => w.id = s.ventas_id_seq) ++
        [⟨s.ventas_id_seq, ahora, toFixed2 (items.foldl (sumarImporte s) (.fin 0))⟩] := by
    simp [tiendaTrasVenta, List.filter_append]
  unfold getVentasId
  simp only [hfilter]
  cases hold : s.ventas.filter (fun w => w.id = s.ventas_id_seq) with
  | nil =>
    exact ⟨_, _, rfl, rfl, fun _ => rfl, _, hlinea, rfl, rfl, hnom.symm⟩
  | cons w ws =>
    have hw : w ∈ s.ventas.filter (fun w => w.id = s.ventas_id_seq) := by
      rw [hold]
      exact List.mem_cons_self _ _
    rw [List.mem_filter] at hw
    refine ⟨_, _, rfl, by simpa using hw.2, fun hfresh => ?_, _, hlinea, rfl, rfl, hnom.symm⟩
    exact absurd (by simpa using hw.2) (hfresh w hw.1)

/-- Witness of C8: two hammers sold at 120, then supplier 7 repriced by 100
percent (the hammer now sells at 240); the receipt still shows 120. -/
theorem c8_precio_estable_witness :
    (postVentas 9 [⟨1, 2, none⟩] tiendaEjemplo).1 = .registrada201 ⟨1, 9, .fin 240⟩ 1 ∧
    (putPreciosActualizarProveedor 10 ⟨some 7, some (.fin 100)⟩
      (postVentas 9 [⟨1, 2, none⟩] tiendaEjemplo).2).1 = .actualizados200 1 ∧
    precioLeido (putPreciosActualizarProveedor 10 ⟨some 7, some (.fin 100)⟩
      (postVentas 9 [⟨1, 2, none⟩] tiendaEjemplo).2).2 1 = some 240 ∧
    getVentasId 1
        (putPreciosActualizarProveedor 10 ⟨some 7, some (.fin 100)⟩
          (postVentas 9 [⟨1, 2, none⟩] tiendaEjemplo).2).2 =
      .ok200 ⟨1, 9, .fin 240⟩ [⟨2, some 120, "Martillo", "M-1"⟩] :=
  have h240 : round2 240 = 240 := by
    have := round2_eq_of_nonneg 240 24000 (by norm_num) (by norm_num) (by norm_num)
    rw [this]
    norm_num
  have hdiv : Int.tdiv 100 100 = 1 := by decide
  have hsel : selectProducto tiendaEjemplo 1 = [⟨"Martillo", 5, 120⟩] := by
    simp [selectProducto, tiendaEjemplo]
  have hs : Surtible tiendaEjemplo [] [⟨1, 2, none⟩] :=
    ⟨⟨⟨"Martillo", 5, 120⟩, [], hsel, by norm_num [demanda]⟩, trivial⟩
  have hp : precioLeido tiendaEjemplo 1 = some 120 := by
    simp [precioLeido, hsel]
  have ht : ([⟨1, 2, none⟩] : List Item).foldl (sumarImporte tiendaEjemplo) (.fin 0) =
      (JsNum.fin 0).add ((parseFloat 120).mul (parseFloat 2)) := by
    simp only [List.foldl_cons, List.foldl_nil, sumarImporte, hp]
  have hpost : postVentas 9 [⟨1, 2, none⟩] tiendaEjemplo =
      (.registrada201 ⟨1, 9, .fin 240⟩ 1,
       ⟨[⟨1, "Martillo", "M-1", 3⟩, ⟨2, "Clavo", "C-1", 100⟩],
        [⟨1, 7, 100, 20, 120, 0⟩, ⟨2, 8, 1, 50, 3 / 2, 0⟩],
        [⟨1, 9, .fin 240⟩], [⟨1, 1, 2, some 120⟩], 2⟩) := by
    rw [postVentas_of_surtible 9 _ tiendaEjemplo (by simp) hs, ht, total_dos_martillos]
    simp only [tiendaTrasVenta, ht, total_dos_martillos, detalleDe, hp, List.map_cons,
      List.map_nil]
    norm_num [tiendaEjemplo, demanda]
  have hput : putPreciosActualizarProveedor 10 ⟨some 7, some (.fin 100)⟩
      (postVentas 9 [⟨1, 2, none⟩] tiendaEjemplo).2 =
      (.actualizados200 1,
       ⟨[⟨1, "Martillo", "M-1", 3⟩, ⟨2, "Clavo", "C-1", 100⟩],
        [⟨1, 7, 200, 20, 240, 10⟩, ⟨2, 8, 1, 50, 3 / 2, 0⟩],
        [⟨1, 9, .fin 240⟩], [⟨1, 1, 2, some 120⟩], 2⟩) := by
    rw [hpost]
    simp only [putPreciosActualizarProveedor, actualizarProveedor, repreciarFila]
    rw [if_neg (by simp)]
    norm_num [hdiv, h240]
  have h : (postVentas 9 [⟨1, 2, none⟩] tiendaEjemplo).1 =
      .registrada201 ⟨1, 9, .fin 240⟩ 1 := by
    rw [hpost]
  have hc := c8_precio_estable 9 10 [⟨1, 2, none⟩] tiendaEjemplo ⟨1, 9, .fin 240⟩ 1
    ⟨some 7, some (.fin 100)⟩ ⟨1, 2, none⟩ ⟨"Martillo", 5, 120⟩ [] h (by simp) hsel
  ⟨h, by rw [hput], by
    rw [hput]
    simp [precioLeido, selectProducto], by
    have h1 := hc.1
    simp only at h1
    rw [h1, hpost]
    simp [getVentasId, selectDetalle]⟩

end Ferreteria
